import Mathlib

/-!
Verification of the Logbook desktop-shell layer (src-tauri/src/lib.rs).

The shell consists of two host-callable commands (`save_file`, `kill_bridge`),
a startup hook (Windows WebView2 cache clearing, a stale-service-worker
eviction script evaluated in the webview), and an exit handler that kills the
NMEA bridge sidecar.  We give a shallow embedding of each piece:

* `FileSystem` / `fsWrite` / `save_file` — the file-save command over an
  explicit filesystem state (paths are component lists, contents byte lists);
* `WinFS` / `removeDirAll` / `clearWebviewCache` — the Windows cache-clearing
  block of the setup hook, over a set of existing filesystem paths;
* `BrowserState` / `evictScript` — the JavaScript eviction snippet that
  unregisters service workers, deletes non-tile cache buckets and reloads
  at most once per session;
* `StartupAction` / `startupActions` — the ordered trace of effects the
  `run` function performs before the event loop takes over;
* `ProcessEffect` / `kill_bridge` / `runEventHandler` — the sidecar-kill
  command and the `RunEvent::Exit` handler.
-/

/-- A filesystem path, as its list of components. -/
abbrev FsPath := List String

/-- Byte buffer (each entry a byte value). -/
abbrev Bytes := List Nat

/-- Filesystem state for the file-save command: the set of existing
directories and a map (association list) from file paths to contents. -/
structure FileSystem where
  dirs : List FsPath
  files : List (FsPath × Bytes)
deriving DecidableEq

/-- Read a file's contents, `none` when no file exists at the path. -/
def readFile (fs : FileSystem) (p : FsPath) : Option Bytes :=
  (fs.files.find? (fun e => decide (e.1 = p))).map Prod.snd

/-- A destination path is writable when its parent directory exists and the
path itself is not a directory (the conditions under which `std::fs::write`
with create-and-truncate semantics succeeds in our model). -/
def writable (fs : FileSystem) (p : FsPath) : Bool :=
  decide (p.dropLast ∈ fs.dirs) && !decide (p ∈ fs.dirs)

/-- The I/O errors the model distinguishes. -/
inductive IoError where
  | notFound
deriving DecidableEq

/-- Display form of an I/O error (the `e.to_string()` of the source). -/
def ioErrorString : IoError → String
  | .notFound => "No such file or directory (os error 2)"

/-- Model of `std::fs::write(&path, &data)`: on a writable path, replace any
existing file at the path with the new contents; otherwise fail and leave the
filesystem unchanged. -/
def fsWrite (fs : FileSystem) (p : FsPath) (data : Bytes) :
    Except IoError Unit × FileSystem :=
  if writable fs p then
    (Except.ok (),
     { fs with files := (p, data) :: fs.files.filter (fun e => !decide (e.1 = p)) })
  else
    (Except.error IoError.notFound, fs)

/-- The `save_file` command:
`std::fs::write(&path, &data).map_err(|e| e.to_string())`. -/
def save_file (path : FsPath) (data : Bytes) (fs : FileSystem) :
    Except String Unit × FileSystem :=
  let r := fsWrite fs path data
  (r.1.mapError ioErrorString, r.2)

/-!  ### Windows cache-clearing block of the setup hook  -/

/-- Filesystem state for the cache-clearing block: the set of existing paths
(directories and files alike; a path's presence in the list is `exists()`). -/
abbrev WinFS := List FsPath

/-- `root` is the path `p` itself or an ancestor of it (component-wise):
the subtree that `remove_dir_all(root)` deletes. -/
def isUnder (root p : FsPath) : Bool :=
  match root, p with
  | [], _ => true
  | _ :: _, [] => false
  | a :: r, b :: q => a == b && isUnder r q

/-- `path.exists()` in the model. -/
def pathExists (fs : WinFS) (p : FsPath) : Bool :=
  decide (p ∈ fs)

/-- Model of `std::fs::remove_dir_all(root)`: delete the root and every path
beneath it (the `Ok` outcome; the source discards the result with `let _`). -/
def removeDirAll (fs : WinFS) (root : FsPath) : WinFS :=
  fs.filter (fun p => !(isUnder root p))

/-- One guarded deletion of the source: `if path.exists() { let _ =
std::fs::remove_dir_all(&path); }`. -/
def removeIfExists (fs : WinFS) (root : FsPath) : WinFS :=
  if pathExists fs root then removeDirAll fs root else fs

/-- One iteration of `for entry in &["Cache", "Code Cache"]`: try the direct
layout `data_dir.join(entry)`, then the fallback layout
`data_dir.join("EBWebView").join("Default").join(entry)`. -/
def clearEntry (dataDir : FsPath) (fs : WinFS) (entry : String) : WinFS :=
  removeIfExists (removeIfExists fs (dataDir ++ [entry]))
    (dataDir ++ ["EBWebView", "Default", entry])

/-- The whole Windows cache-clearing block of the setup hook: both loop
iterations, in source order (`"Cache"` then `"Code Cache"`). -/
def clearWebviewCache (dataDir : FsPath) (fs : WinFS) : WinFS :=
  clearEntry dataDir (clearEntry dataDir fs "Cache") "Code Cache"

/-!  ### Basic lemmas about the cache-clearing model  -/

theorem isUnder_refl (p : FsPath) : isUnder p p = true := by
  induction p with
  | nil => rfl
  | cons a r ih => simp [isUnder, ih]

theorem mem_removeDirAll {fs : WinFS} {root p : FsPath} :
    p ∈ removeDirAll fs root ↔ p ∈ fs ∧ isUnder root p = false := by
  simp [removeDirAll, List.mem_filter]

theorem mem_of_mem_removeIfExists {fs : WinFS} {root p : FsPath}
    (h : p ∈ removeIfExists fs root) : p ∈ fs := by
  unfold removeIfExists at h
  split at h
  · exact (mem_removeDirAll.1 h).1
  · exact h

theorem mem_removeIfExists_of {fs : WinFS} {root p : FsPath}
    (h : p ∈ fs) (hc : isUnder root p = false) : p ∈ removeIfExists fs root := by
  unfold removeIfExists
  split
  · exact mem_removeDirAll.2 ⟨h, hc⟩
  · exact h

theorem root_notMem_removeIfExists (fs : WinFS) (root : FsPath) :
    root ∉ removeIfExists fs root := by
  unfold removeIfExists
  split
  next h =>
    intro hm
    have := (mem_removeDirAll.1 hm).2
    simp [isUnder_refl] at this
  next h =>
    intro hm
    simp [pathExists] at h
    exact h hm

theorem notMem_removeIfExists_of_notMem {fs : WinFS} {root p : FsPath}
    (h : p ∉ fs) : p ∉ removeIfExists fs root :=
  fun hm => h (mem_of_mem_removeIfExists hm)

theorem removeIfExists_of_notMem {fs : WinFS} {root : FsPath}
    (h : root ∉ fs) : removeIfExists fs root = fs := by
  unfold removeIfExists
  have : pathExists fs root = false := by simpa [pathExists] using h
  simp [this]

/-!  ### The service-worker eviction script  -/

/-- The name of the cache bucket the script preserves
(`'protomaps-tiles-precache'`). -/
def tilesBucket : String := "protomaps-tiles-precache"

/-- Browser-visible state the eviction script acts on: availability of the
two APIs it feature-tests, the list of service-worker registrations, the
named cache buckets, the per-session `sessionStorage.__tc` flag, and a
counter of `location.reload()` calls. -/
structure BrowserState where
  swAvailable : Bool
  cachesAvailable : Bool
  registrations : List String
  cacheKeys : List String
  tcFlag : Bool
  reloads : Nat
deriving DecidableEq

/-- The JS snippet evaluated by the setup hook, step by step:
`c=false`; if `'serviceWorker' in navigator`, unregister every registration,
setting `c` when at least one existed; if `'caches' in window`, delete every
cache key other than `tilesBucket`, setting `c` when at least one such key
existed; finally, if `c` and `sessionStorage.__tc` is unset, set the flag and
reload once. -/
def evictScript (s : BrowserState) : BrowserState :=
  let regs := if s.swAvailable then [] else s.registrations
  let c1 := s.swAvailable && !s.registrations.isEmpty
  let keys := if s.cachesAvailable then
      s.cacheKeys.filter (fun k => k == tilesBucket)
    else s.cacheKeys
  let c2 := s.cachesAvailable && s.cacheKeys.any (fun k => k != tilesBucket)
  let c := c1 || c2
  let s1 := { s with registrations := regs, cacheKeys := keys }
  if c && !s1.tcFlag then { s1 with tcFlag := true, reloads := s1.reloads + 1 }
  else s1

/-!  ### Startup trace of `run`  -/

/-- The host commands passed to `tauri::generate_handler![...]`. -/
def registeredCommands : List String := ["save_file", "kill_bridge"]

/-- Vocabulary of observable startup effects.  The constructors
`scheduleDelayedRenderCheck` and `initiateUpdateCheck` name effects the
specification describes (a delayed render-failure reload check; an explicit
update-endpoint query) so that their presence or absence in the trace can be
stated; `pageLoaded` stands for the webview's page-load event, which the
windowing framework delivers only while the event loop (`app.run`) is
pumping, never during `Builder::build`. -/
inductive StartupAction where
  | initPlugin : String → StartupAction
  | registerCommands : List String → StartupAction
  | clearCacheDirs : StartupAction
  | evalEvictionScript : StartupAction
  | scheduleDelayedRenderCheck : Nat → StartupAction
  | initiateUpdateCheck : StartupAction
  | runEventLoop : StartupAction
  | pageLoaded : StartupAction
deriving DecidableEq

/-- The ordered trace of `run` up to (and including) the start of the event
loop: the five plugin initialisations, the command registration, then the
setup hook (the Windows-only cache clear, the eviction-script evaluation when
the `"main"` window exists), then `app.run`; the page-load event is delivered
by the running event loop. -/
def startupActions (isWindows hasMainWindow : Bool) : List StartupAction :=
  [StartupAction.initPlugin "shell",
   StartupAction.initPlugin "updater",
   StartupAction.initPlugin "process",
   StartupAction.initPlugin "dialog",
   StartupAction.initPlugin "window-state",
   StartupAction.registerCommands registeredCommands]
  ++ (if isWindows then [StartupAction.clearCacheDirs] else [])
  ++ (if hasMainWindow then [StartupAction.evalEvictionScript] else [])
  ++ [StartupAction.runEventLoop]
  ++ (if hasMainWindow then [StartupAction.pageLoaded] else [])

/-!  ### Sidecar kill: the command and the exit handler  -/

/-- Observable process-management effects. -/
inductive ProcessEffect where
  | taskkill : Bool → String → ProcessEffect
deriving DecidableEq

/-- The `kill_bridge` command: on Windows, `taskkill /F /IM nmea-bridge.exe`
with the result discarded; elsewhere a no-op. -/
def kill_bridge (isWindows : Bool) : List ProcessEffect :=
  if isWindows then [ProcessEffect.taskkill true "nmea-bridge.exe"] else []

/-- The application run-event kinds the closure passed to `app.run`
distinguishes. -/
inductive AppRunEvent where
  | exit
  | other
deriving DecidableEq

/-- The closure passed to `app.run`: on `RunEvent::Exit`, the Windows-only
`taskkill /F /IM nmea-bridge.exe` with the result discarded; nothing on any
other event. -/
def runEventHandler (isWindows : Bool) (e : AppRunEvent) : List ProcessEffect :=
  match e with
  | AppRunEvent.exit =>
      if isWindows then [ProcessEffect.taskkill true "nmea-bridge.exe"] else []
  | AppRunEvent.other => []

/-!  ## Claim theorems  -/

/-- Claim C1, counterexample: the claim says `clear_webview_cache` is among
the registered command handlers, but the handler list passed to
`generate_handler!` contains only `save_file` and `kill_bridge`. -/
theorem clear_webview_cache_not_registered :
    "clear_webview_cache" ∉ registeredCommands := by decide

/-- Claim C1, amended: no `clear_webview_cache` command is registered; the
host-callable commands are exactly `save_file` and `kill_bridge`, and the
cache-directory deletion instead runs automatically in the startup hook (on
Windows), which the startup trace records. -/
theorem registered_commands_exact :
    registeredCommands = ["save_file", "kill_bridge"] ∧
    "clear_webview_cache" ∉ registeredCommands ∧
    StartupAction.registerCommands registeredCommands ∈ startupActions true true ∧
    StartupAction.clearCacheDirs ∈ startupActions true true := by decide

/-- Claim C2: for every byte buffer and every writable destination path,
`save_file` writes the buffer (overwriting any existing file), returns
success, and a subsequent read of the path yields exactly the written
bytes. -/
theorem save_file_roundtrip (fs : FileSystem) (p : FsPath) (d : Bytes)
    (h : writable fs p = true) :
    (save_file p d fs).1 = Except.ok () ∧
    readFile (save_file p d fs).2 p = some d := by
  simp [save_file, fsWrite, h, readFile, List.find?, Except.mapError]

/-- Witness for claim C2, at a filesystem that already holds a file at the
destination (so the overwrite case is exercised). -/
theorem save_file_roundtrip_witness :
    writable ⟨[[]], [(["out.txt"], [0])]⟩ ["out.txt"] = true ∧
    ((save_file ["out.txt"] [1, 2, 3] ⟨[[]], [(["out.txt"], [0])]⟩).1 = Except.ok () ∧
     readFile (save_file ["out.txt"] [1, 2, 3] ⟨[[]], [(["out.txt"], [0])]⟩).2
       ["out.txt"] = some [1, 2, 3]) :=
  ⟨by decide, save_file_roundtrip _ _ _ (by decide)⟩

/-- Claim C3: `save_file` on an unwritable destination path (e.g. one whose
parent directory does not exist) returns an error string and leaves the
filesystem unchanged, so no file is created at the path. -/
theorem save_file_unwritable (fs : FileSystem) (p : FsPath) (d : Bytes)
    (h : writable fs p = false) :
    (save_file p d fs).1 = Except.error (ioErrorString IoError.notFound) ∧
    (save_file p d fs).2 = fs ∧
    readFile (save_file p d fs).2 p = readFile fs p := by
  simp [save_file, fsWrite, h, Except.mapError]

/-- Witness for claim C3, at an empty filesystem and a path whose parent
directory does not exist. -/
theorem save_file_unwritable_witness :
    writable ⟨[], []⟩ ["missing", "f.txt"] = false ∧
    ((save_file ["missing", "f.txt"] [7] ⟨[], []⟩).1 =
       Except.error (ioErrorString IoError.notFound) ∧
     (save_file ["missing", "f.txt"] [7] ⟨[], []⟩).2 = (⟨[], []⟩ : FileSystem) ∧
     readFile (save_file ["missing", "f.txt"] [7] ⟨[], []⟩).2 ["missing", "f.txt"] =
       readFile ⟨[], []⟩ ["missing", "f.txt"]) :=
  ⟨by decide, save_file_unwritable _ _ _ (by decide)⟩

/-- Claim C10: the `RunEvent::Exit` handler is observationally equal to the
`kill_bridge` command on every platform: on Windows both issue the same
forced `taskkill` of `nmea-bridge.exe` (result discarded), elsewhere both are
no-ops. -/
theorem exit_handler_equals_kill_bridge (isWindows : Bool) :
    runEventHandler isWindows AppRunEvent.exit = kill_bridge isWindows ∧
    kill_bridge true = [ProcessEffect.taskkill true "nmea-bridge.exe"] ∧
    kill_bridge false = [] ∧
    runEventHandler false AppRunEvent.exit = [] := by
  cases isWindows <;> exact ⟨rfl, rfl, rfl, rfl⟩

/-- Claim C4: the cache clear removes at most the subtrees of the four roots
`Cache` / `Code Cache` under the local data directory and under its
`EBWebView/Default` fallback layout — every path under none of the four
roots survives (`p`), and every surviving path already existed (`q`), for
every initial filesystem state. -/
theorem clear_cache_frame (dataDir : FsPath) (fs : WinFS) (p q : FsPath)
    (hp : p ∈ fs)
    (h1 : isUnder (dataDir ++ ["Cache"]) p = false)
    (h2 : isUnder (dataDir ++ ["EBWebView", "Default", "Cache"]) p = false)
    (h3 : isUnder (dataDir ++ ["Code Cache"]) p = false)
    (h4 : isUnder (dataDir ++ ["EBWebView", "Default", "Code Cache"]) p = false)
    (hq : q ∈ clearWebviewCache dataDir fs) :
    p ∈ clearWebviewCache dataDir fs ∧ q ∈ fs := by
  constructor
  · unfold clearWebviewCache clearEntry
    exact mem_removeIfExists_of (mem_removeIfExists_of (mem_removeIfExists_of
      (mem_removeIfExists_of hp h1) h2) h3) h4
  · unfold clearWebviewCache clearEntry at hq
    exact mem_of_mem_removeIfExists (mem_of_mem_removeIfExists
      (mem_of_mem_removeIfExists (mem_of_mem_removeIfExists hq)))

/-- A concrete local-data directory state exercising claim C4: both cache
layouts present, plus an IndexedDB directory and a sibling tile directory. -/
def cacheDemoFS : WinFS :=
  [["lad"], ["lad", "Cache"], ["lad", "Cache", "f"],
   ["lad", "EBWebView", "Default", "Cache"], ["lad", "IndexedDB"],
   ["lad", "protomaps"]]

/-- Witness for claim C4, at `cacheDemoFS`: the IndexedDB and tile
directories survive the clear. -/
theorem clear_cache_frame_witness :
    (["lad", "IndexedDB"] ∈ cacheDemoFS ∧
      isUnder (["lad"] ++ ["Cache"]) ["lad", "IndexedDB"] = false ∧
      isUnder (["lad"] ++ ["EBWebView", "Default", "Cache"]) ["lad", "IndexedDB"] = false ∧
      isUnder (["lad"] ++ ["Code Cache"]) ["lad", "IndexedDB"] = false ∧
      isUnder (["lad"] ++ ["EBWebView", "Default", "Code Cache"]) ["lad", "IndexedDB"] = false ∧
      ["lad", "protomaps"] ∈ clearWebviewCache ["lad"] cacheDemoFS) ∧
    (["lad", "IndexedDB"] ∈ clearWebviewCache ["lad"] cacheDemoFS ∧
      ["lad", "protomaps"] ∈ cacheDemoFS) :=
  ⟨⟨by decide, by decide, by decide, by decide, by decide, by decide⟩,
   clear_cache_frame ["lad"] cacheDemoFS _ _ (by decide) (by decide) (by decide)
     (by decide) (by decide) (by decide)⟩

/-- Claim C5: the cache clear is idempotent — running it twice in succession
yields the same state as running it once (the source checks `exists()` first,
so on the second run every target root is gone and is skipped silently). -/
theorem clear_cache_idempotent (dataDir : FsPath) (fs : WinFS) :
    clearWebviewCache dataDir (clearWebviewCache dataDir fs) =
      clearWebviewCache dataDir fs := by
  have h1 : dataDir ++ ["Cache"] ∉ clearWebviewCache dataDir fs := by
    unfold clearWebviewCache clearEntry
    exact notMem_removeIfExists_of_notMem (notMem_removeIfExists_of_notMem
      (notMem_removeIfExists_of_notMem (root_notMem_removeIfExists _ _)))
  have h2 : dataDir ++ ["EBWebView", "Default", "Cache"] ∉
      clearWebviewCache dataDir fs := by
    unfold clearWebviewCache clearEntry
    exact notMem_removeIfExists_of_notMem (notMem_removeIfExists_of_notMem
      (root_notMem_removeIfExists _ _))
  have h3 : dataDir ++ ["Code Cache"] ∉ clearWebviewCache dataDir fs := by
    unfold clearWebviewCache clearEntry
    exact notMem_removeIfExists_of_notMem (root_notMem_removeIfExists _ _)
  have h4 : dataDir ++ ["EBWebView", "Default", "Code Cache"] ∉
      clearWebviewCache dataDir fs := by
    unfold clearWebviewCache clearEntry
    exact root_notMem_removeIfExists _ _
  conv_lhs => rw [clearWebviewCache, clearEntry, clearEntry]
  rw [removeIfExists_of_notMem h1, removeIfExists_of_notMem h2,
    removeIfExists_of_notMem h3, removeIfExists_of_notMem h4]

/-- Claim C6: with both APIs available, a nonempty registration list and the
session flag unset, the eviction script unregisters every registration,
deletes every cache bucket other than the tiles bucket, sets the flag and
reloads exactly once; on any state whose session flag is already set
(`t`), it performs no reload even if it deletes something. -/
theorem evict_script_behavior (s t : BrowserState)
    (hsw : s.swAvailable = true) (hca : s.cachesAvailable = true)
    (hreg : s.registrations ≠ []) (hflag : s.tcFlag = false)
    (htflag : t.tcFlag = true) :
    (evictScript s).registrations = [] ∧
    (evictScript s).cacheKeys = s.cacheKeys.filter (fun k => k == tilesBucket) ∧
    (evictScript s).tcFlag = true ∧
    (evictScript s).reloads = s.reloads + 1 ∧
    (evictScript t).reloads = t.reloads := by
  have hne : s.registrations.isEmpty = false := by
    cases h : s.registrations with
    | nil => exact absurd h hreg
    | cons a l => rfl
  refine ⟨?_, ?_, ?_, ?_, ?_⟩ <;>
    simp [evictScript, hsw, hca, hflag, hne, htflag]

/-- Witness for claim C6, at a fresh session holding one stale registration
and one non-tile bucket, and a second state whose flag is already set. -/
theorem evict_script_behavior_witness :
    ((⟨true, true, ["sw-old"], ["workbox-precache-v2", "protomaps-tiles-precache"],
        false, 0⟩ : BrowserState).swAvailable = true ∧
     (⟨true, true, ["sw-old"], ["workbox-precache-v2", "protomaps-tiles-precache"],
        false, 0⟩ : BrowserState).cachesAvailable = true ∧
     (⟨true, true, ["sw-old"], ["workbox-precache-v2", "protomaps-tiles-precache"],
        false, 0⟩ : BrowserState).registrations ≠ [] ∧
     (⟨true, true, ["sw-old"], ["workbox-precache-v2", "protomaps-tiles-precache"],
        false, 0⟩ : BrowserState).tcFlag = false ∧
     (⟨true, true, ["sw2"], ["other"], true, 5⟩ : BrowserState).tcFlag = true) ∧
    ((evictScript ⟨true, true, ["sw-old"],
         ["workbox-precache-v2", "protomaps-tiles-precache"], false, 0⟩).registrations = [] ∧
     (evictScript ⟨true, true, ["sw-old"],
         ["workbox-precache-v2", "protomaps-tiles-precache"], false, 0⟩).cacheKeys =
       (["workbox-precache-v2", "protomaps-tiles-precache"] : List String).filter
         (fun k => k == tilesBucket) ∧
     (evictScript ⟨true, true, ["sw-old"],
         ["workbox-precache-v2", "protomaps-tiles-precache"], false, 0⟩).tcFlag = true ∧
     (evictScript ⟨true, true, ["sw-old"],
         ["workbox-precache-v2", "protomaps-tiles-precache"], false, 0⟩).reloads = 0 + 1 ∧
     (evictScript ⟨true, true, ["sw2"], ["other"], true, 5⟩).reloads = 5) :=
  ⟨⟨rfl, rfl, by decide, rfl, rfl⟩,
   evict_script_behavior _ _ rfl rfl (by decide) rfl rfl⟩

/-- Claim C7, counterexample: the eviction script is submitted for
evaluation during the setup hook, which runs before the event loop starts
pumping, so the page-loaded event does not precede the script evaluation in
the startup trace. -/
theorem page_load_not_before_script :
    StartupAction.evalEvictionScript ∈ startupActions true true ∧
    ¬ ((startupActions true true).indexOf StartupAction.pageLoaded <
       (startupActions true true).indexOf StartupAction.evalEvictionScript) := by
  decide

/-- Claim C7, amended: the script evaluation is requested in the setup hook,
strictly before the event loop starts and hence before the page-loaded event
is delivered; the code registers no page-load callback and does not gate the
evaluation on page load. -/
theorem script_requested_before_page_load (isWindows : Bool) :
    (startupActions isWindows true).indexOf StartupAction.evalEvictionScript <
      (startupActions isWindows true).indexOf StartupAction.runEventLoop ∧
    (startupActions isWindows true).indexOf StartupAction.runEventLoop <
      (startupActions isWindows true).indexOf StartupAction.pageLoaded := by
  cases isWindows <;> decide

/-- Claim C8, counterexample: startup schedules no delayed render check —
the one-second delayed check the claim describes does not occur in the
startup trace. -/
theorem delayed_render_check_absent_concrete :
    StartupAction.scheduleDelayedRenderCheck 1000 ∉ startupActions true true := by
  decide

/-- Claim C8, amended: the load-failure retry mechanism is absent from the
code — startup schedules no delayed render check at all, for any platform,
window configuration or delay. -/
theorem no_delayed_render_check (isWindows hasMainWindow : Bool) (delayMs : Nat) :
    StartupAction.scheduleDelayedRenderCheck delayMs ∉
      startupActions isWindows hasMainWindow := by
  cases isWindows <;> cases hasMainWindow <;>
    simp [startupActions, registeredCommands]

/-- Claim C9, counterexample: startup never initiates an update check — no
query of the update-distribution endpoint occurs in the startup trace. -/
theorem update_check_absent_concrete :
    StartupAction.initiateUpdateCheck ∉ startupActions true true := by decide

/-- Claim C9, amended: startup registers the updater plugin (making update
checks available to the embedded UI) but the shell's startup code itself
initiates no update check, on any platform or window configuration. -/
theorem updater_plugin_without_check (isWindows hasMainWindow : Bool) :
    StartupAction.initPlugin "updater" ∈ startupActions isWindows hasMainWindow ∧
    StartupAction.initiateUpdateCheck ∉ startupActions isWindows hasMainWindow := by
  cases isWindows <;> cases hasMainWindow <;> decide
